import Mathlib

/-!
# gcloud-image-meta: the `ImageMeta` HTTP handler

A shallow embedding of `function.go`.  The handler is straight-line code that
talks to four external collaborators (the msgpack codec, the object store, the
MIME sniffer of `net/http` and the image decoder of `imaging`).  Their answers
are collected in an environment record `Env`; the handler itself becomes a
function from an environment, the contents of the object store and the request
body to the sequence of steps it performed (`Outcome.trace`) and the contents
of the object store afterwards (`Outcome.store`).
-/

namespace ImageMeta

/-! ## Data model -/

/-- A Go `[]byte`. -/
abbrev Bytes := List Nat

/-- The Go struct `ImageData` (function.go, lines 31-34). -/
structure ImageData where
  Filename : String
  Bucket : String
  deriving DecidableEq, Repr

/-- The Go struct `ImageShape` (function.go, lines 36-41). -/
structure ImageShape where
  Shape : String
  Orientation : String
  Width : Int
  Height : Int
  deriving DecidableEq, Repr

/-- A value stored in a `map[string]interface{}` by the handler: a string or an `int`. -/
inductive Field where
  | str (s : String)
  | int (n : Int)
  deriving DecidableEq, Repr

/-- The values the handler hands to `msgpack.Marshal`: a `map[string]interface{}`
literal (its entries in the order of the literal) or an `ImageShape` struct. -/
inductive Data where
  | map (entries : List (String × Field))
  | imageShape (s : ImageShape)
  deriving DecidableEq, Repr

/-- The body written to the `http.ResponseWriter`: the bytes produced by the codec,
or the text line printed by `http.Error`. -/
inductive Body where
  | binary (b : Bytes)
  | text (s : String)
  deriving DecidableEq, Repr

/-- What the caller receives: the `Content-Type` header, the transport-level status
code and the body. -/
structure HttpResponse where
  contentType : String
  statusCode : Int
  body : Body
  deriving DecidableEq, Repr

/-- A byte stream served by the object store: the bytes it delivers before it ends,
and whether it ends with a read error (`fault = true`) or with end-of-stream. -/
structure Stream where
  data : Bytes
  fault : Bool
  deriving DecidableEq, Repr

/-- The steps of one invocation that are visible outside of the handler, in the
order in which they happen. -/
inductive Event where
  | newClient
  | closeClient
  | newReader (bucket object : String)
  | readFull (n : Nat)
  | closeReader
  | detectContentType (probe : Bytes)
  | readAll
  | imagingDecode (content : Bytes)
  | calculateImageShape (width height : Int)
  | marshalMeta (meta : Data)
  | newWriter (bucket object : String)
  | write (bucket object : String) (data : Bytes)
  | closeWriter (bucket object : String)
  | respond (r : HttpResponse)
  deriving DecidableEq, Repr

/-- The objects of the store: bucket and object name to contents. -/
abbrev Store := String → String → Option Bytes

/-- The store after the object `(bucket, object)` has been created or overwritten. -/
def Store.put (s : Store) (bucket object : String) (data : Bytes) : Store :=
  fun b k => if b = bucket ∧ k = object then some data else s b k

/-- The behaviour of the external collaborators during one invocation.
`none` and `false` stand for a returned `err != nil`. -/
structure Env where
  /-- The result of `msgpack.NewDecoder(r.Body).Decode(imageData)`. -/
  decode : Bytes → Option ImageData
  /-- The result of `msgpack.Marshal`. -/
  marshal : Data → Option Bytes
  /-- Whether `storage.NewClient` succeeds. -/
  newClient : Bool
  /-- The result of the n-th call (counted from 0) of `obj.NewReader` on an object. -/
  newReader : Nat → String → String → Option Stream
  /-- The function `http.DetectContentType`. -/
  detectContentType : Bytes → String
  /-- The result of `imaging.Decode`, as `(Bounds().Dx(), Bounds().Dy())`. -/
  imagingDecode : Bytes → Option (Int × Int)
  /-- Whether `wc.Write` on the writer of an object succeeds. -/
  write : String → String → Bytes → Bool
  /-- Whether `wc.Close` on the writer of an object succeeds. -/
  closeWriter : String → String → Bool

/-- The result of one invocation. -/
structure Outcome where
  trace : List Event
  store : Store

/-! ## Library functions used by the handler -/

/-- The function `io.ReadFull(rc, buf)` with `len(buf) = n`: it succeeds exactly when the
stream delivers `n` bytes before it ends; an end of stream or an error before
that is returned as an error, an error after that is not seen. -/
def readFull (rc : Stream) (n : Nat) : Option Bytes :=
  if n ≤ rc.data.length then some (rc.data.take n) else none

/-- The function `io.ReadAll(rc)`: all bytes up to the end of the stream, or the read
error the stream ends with. -/
def readAll (rc : Stream) : Option Bytes :=
  if rc.fault then none else some rc.data

/-- The function `http.Error(w, error, code)` of `net/http`: a plain-text response with
the given status whose body is the message followed by a newline. -/
def httpError (error : String) (code : Int) : HttpResponse :=
  ⟨"text/plain; charset=utf-8", code, .text (error ++ "\n")⟩

/-! ## function.go -/

/-- The table `mimesAllowed` (function.go, lines 21-27). -/
def mimesAllowed : List (String × String) :=
  [("image/gif", "gif"),
   ("image/x-icon", "ico"),
   ("image/jpeg", "jpeg"),
   ("image/webp", "webp"),
   ("image/png", "png")]

/-- The constant `metaFileExtension` (function.go, line 29). -/
def metaFileExtension : String := ".img.meta"

/-- The constants `http.StatusOK`, `http.StatusBadRequest`, `http.StatusInternalServerError`. -/
def StatusOK : Int := 200

def StatusBadRequest : Int := 400

def StatusInternalServerError : Int := 500

/-- The function `sendResponse` (function.go, lines 43-53). -/
def sendResponse (marshal : Data → Option Bytes) (data : Data) (statusCode : Int) : List Event :=
  match marshal data with
  | none => [.respond (httpError "Failed to create response" StatusInternalServerError)]
  | some responseBytes => [.respond ⟨"application/msgpack", statusCode, .binary responseBytes⟩]

/-- The map `errorData` built by `sendError` (function.go, lines 56-59). -/
def errorData (message : String) (statusCode : Int) : Data :=
  .map [("message", .str message), ("status_code", .int statusCode)]

/-- The function `sendError` (function.go, lines 55-62). -/
def sendError (marshal : Data → Option Bytes) (message : String) (statusCode : Int) : List Event :=
  sendResponse marshal (errorData message statusCode) statusCode

/-- The function `calculateImageShape` (function.go, lines 162-169). -/
def calculateImageShape (width height : Int) : String × String :=
  if width = height then ("Square", "Symmetrical")
  else if width > height then ("Rectangle", "Landscape")
  else ("Rectangle", "Portrait")

/-- The map `meta` built by the handler (function.go, lines 135-140). -/
def metaData (shape orientation : String) (width height : Int) : Data :=
  .map [("shape", .str shape), ("orientation", .str orientation),
        ("width", .int width), ("height", .int height)]

/-- The function `imageMeta` (function.go, lines 64-160).  Each exit lists the steps
performed so far, the response, and then the deferred `Close` calls in the
order in which Go runs them. -/
def imageMeta (env : Env) (store : Store) (body : Bytes) : Outcome :=
  match env.decode body with
  | none =>
    ⟨sendError env.marshal "Failed to parse request data" StatusBadRequest, store⟩
  | some imageData =>
  if imageData.Filename = "" ∨ imageData.Bucket = "" then
    ⟨sendError env.marshal "Incorrect filename or bucket" StatusBadRequest, store⟩
  else
  if env.newClient = false then
    ⟨[.newClient]
      ++ sendError env.marshal "Failed to create client" StatusInternalServerError, store⟩
  else
  match env.newReader 0 imageData.Bucket imageData.Filename with
  | none =>
    ⟨[.newClient, .newReader imageData.Bucket imageData.Filename]
      ++ sendError env.marshal "Failed to read source file" StatusInternalServerError
      ++ [.closeClient], store⟩
  | some rc =>
  match readFull rc 512 with
  | none =>
    ⟨[.newClient, .newReader imageData.Bucket imageData.Filename, .readFull 512]
      ++ sendError env.marshal "Failed to determine MIME type" StatusInternalServerError
      ++ [.closeReader, .closeClient], store⟩
  | some buf =>
  let mime := env.detectContentType buf
  if (mimesAllowed.lookup mime).isNone then
    ⟨[.newClient, .newReader imageData.Bucket imageData.Filename, .readFull 512,
      .detectContentType buf]
      ++ sendError env.marshal "File type not allowed" StatusBadRequest
      ++ [.closeReader, .closeClient], store⟩
  else
  match env.newReader 1 imageData.Bucket imageData.Filename with
  | none =>
    ⟨[.newClient, .newReader imageData.Bucket imageData.Filename, .readFull 512,
      .detectContentType buf, .newReader imageData.Bucket imageData.Filename]
      ++ sendError env.marshal "Failed to read source file" StatusInternalServerError
      ++ [.closeReader, .closeClient], store⟩
  | some rc2 =>
  match readAll rc2 with
  | none =>
    ⟨[.newClient, .newReader imageData.Bucket imageData.Filename, .readFull 512,
      .detectContentType buf, .newReader imageData.Bucket imageData.Filename, .readAll]
      ++ sendError env.marshal "Failed to read source file" StatusInternalServerError
      ++ [.closeReader, .closeReader, .closeClient], store⟩
  | some content =>
  match env.imagingDecode content with
  | none =>
    ⟨[.newClient, .newReader imageData.Bucket imageData.Filename, .readFull 512,
      .detectContentType buf, .newReader imageData.Bucket imageData.Filename, .readAll,
      .imagingDecode content]
      ++ sendError env.marshal "Failed to decode source image" StatusInternalServerError
      ++ [.closeReader, .closeReader, .closeClient], store⟩
  | some (width, height) =>
  let shape := (calculateImageShape width height).1
  let orientation := (calculateImageShape width height).2
  let meta := metaData shape orientation width height
  match env.marshal meta with
  | none =>
    ⟨[.newClient, .newReader imageData.Bucket imageData.Filename, .readFull 512,
      .detectContentType buf, .newReader imageData.Bucket imageData.Filename, .readAll,
      .imagingDecode content, .calculateImageShape width height, .marshalMeta meta]
      ++ sendError env.marshal "Failed to create metadata" StatusInternalServerError
      ++ [.closeReader, .closeReader, .closeClient], store⟩
  | some metaBytes =>
  let metaObject := imageData.Filename ++ metaFileExtension
  if env.write imageData.Bucket metaObject metaBytes = false then
    ⟨[.newClient, .newReader imageData.Bucket imageData.Filename, .readFull 512,
      .detectContentType buf, .newReader imageData.Bucket imageData.Filename, .readAll,
      .imagingDecode content, .calculateImageShape width height, .marshalMeta meta,
      .newWriter imageData.Bucket metaObject, .write imageData.Bucket metaObject metaBytes]
      ++ sendError env.marshal "Failed to save metadata to .img.meta" StatusInternalServerError
      ++ [.closeReader, .closeReader, .closeClient], store⟩
  else
    ⟨[.newClient, .newReader imageData.Bucket imageData.Filename, .readFull 512,
      .detectContentType buf, .newReader imageData.Bucket imageData.Filename, .readAll,
      .imagingDecode content, .calculateImageShape width height, .marshalMeta meta,
      .newWriter imageData.Bucket metaObject, .write imageData.Bucket metaObject metaBytes,
      .closeWriter imageData.Bucket metaObject]
      ++ sendResponse env.marshal (.imageShape ⟨shape, orientation, width, height⟩) StatusOK
      ++ [.closeReader, .closeReader, .closeClient],
     if env.closeWriter imageData.Bucket metaObject then
       store.put imageData.Bucket metaObject metaBytes
     else store⟩

/-! ## Observations on a trace -/

/-- The responses sent to the caller, in order. -/
def responses : List Event → List HttpResponse
  | [] => []
  | .respond r :: es => r :: responses es
  | _ :: es => responses es

/-- The deferred calls, which run after the handler has returned. -/
def Event.isDeferredClose : Event → Bool
  | .closeReader => true
  | .closeClient => true
  | _ => false

/-- The calls that reach the object store. -/
def Event.isStorageOp : Event → Bool
  | .newClient => true
  | .closeClient => true
  | .newReader _ _ => true
  | .readFull _ => true
  | .readAll => true
  | .closeReader => true
  | .newWriter _ _ => true
  | .write _ _ _ => true
  | .closeWriter _ _ => true
  | _ => false

/-- The object a step writes to, if it is a step on a writer. -/
def Event.writeTarget : Event → Option (String × String)
  | .newWriter b k => some (b, k)
  | .write b k _ => some (b, k)
  | .closeWriter b k => some (b, k)
  | _ => none

/-- The objects written to by the steps of a trace. -/
def writeTargets : List Event → List (String × String)
  | [] => []
  | e :: es =>
    match e.writeTarget with
    | some t => t :: writeTargets es
    | none => writeTargets es

/-- The steps that follow the first response. -/
def afterResponse : List Event → List Event
  | [] => []
  | .respond _ :: es => es
  | _ :: es => afterResponse es

/-- The object under which the metadata of a request is stored. -/
def ImageData.metaObject (d : ImageData) : String := d.Filename ++ metaFileExtension

/-! ## The transition table of the specification

The failures of the pipeline in the order of the transition table (steps 1 to 12),
with the status the error taxonomy assigns to each one: the three client input
errors are bad requests, every other failure is an internal error. -/

/-- The step of the pipeline that fails. -/
inductive Failure where
  | parseRequest
  | missingField
  | createClient
  | openSource
  | probe
  | mimeNotAllowed
  | reopenSource
  | readSource
  | decodeImage
  | encodeMetadata
  | saveMetadata
  deriving DecidableEq, Repr

/-- The status of a failure: 400 for the three client input errors, 500 otherwise. -/
def Failure.status : Failure → Int
  | .parseRequest => 400
  | .missingField => 400
  | .mimeNotAllowed => 400
  | _ => 500

/-- The message the handler sends for a failure (function.go, the `sendError` calls). -/
def Failure.message : Failure → String
  | .parseRequest => "Failed to parse request data"
  | .missingField => "Incorrect filename or bucket"
  | .createClient => "Failed to create client"
  | .openSource => "Failed to read source file"
  | .probe => "Failed to determine MIME type"
  | .mimeNotAllowed => "File type not allowed"
  | .reopenSource => "Failed to read source file"
  | .readSource => "Failed to read source file"
  | .decodeImage => "Failed to decode source image"
  | .encodeMetadata => "Failed to create metadata"
  | .saveMetadata => "Failed to save metadata to .img.meta"

/-- The first step of the transition table that fails, if any; written from the
transition table of the specification (steps 1 to 12), to be compared with
`imageMeta`. -/
def firstFailure (env : Env) (body : Bytes) : Option Failure :=
  match env.decode body with
  | none => some .parseRequest
  | some d =>
  if d.Filename = "" ∨ d.Bucket = "" then some .missingField
  else if env.newClient = false then some .createClient
  else
  match env.newReader 0 d.Bucket d.Filename with
  | none => some .openSource
  | some rc =>
  match readFull rc 512 with
  | none => some .probe
  | some buf =>
  if (mimesAllowed.lookup (env.detectContentType buf)).isNone then some .mimeNotAllowed
  else
  match env.newReader 1 d.Bucket d.Filename with
  | none => some .reopenSource
  | some rc2 =>
  match readAll rc2 with
  | none => some .readSource
  | some content =>
  match env.imagingDecode content with
  | none => some .decodeImage
  | some (width, height) =>
  match env.marshal (metaData (calculateImageShape width height).1
      (calculateImageShape width height).2 width height) with
  | none => some .encodeMetadata
  | some metaBytes =>
  if env.write d.Bucket (d.Filename ++ metaFileExtension) metaBytes = false then
    some .saveMetadata
  else none

/-! ## The order of the calls -/

/-- The calls of the handler, without their arguments. -/
inductive Step where
  | newClient
  | closeClient
  | newReader
  | readFull
  | closeReader
  | detectContentType
  | readAll
  | imagingDecode
  | calculateImageShape
  | marshalMeta
  | newWriter
  | write
  | closeWriter
  | respond
  deriving DecidableEq, Repr

/-- The call an event records. -/
def Event.step : Event → Step
  | .newClient => .newClient
  | .closeClient => .closeClient
  | .newReader _ _ => .newReader
  | .readFull _ => .readFull
  | .closeReader => .closeReader
  | .detectContentType _ => .detectContentType
  | .readAll => .readAll
  | .imagingDecode _ => .imagingDecode
  | .calculateImageShape _ _ => .calculateImageShape
  | .marshalMeta _ => .marshalMeta
  | .newWriter _ _ => .newWriter
  | .write _ _ _ => .write
  | .closeWriter _ _ => .closeWriter
  | .respond _ => .respond

/-- The calls of `imageMeta` that precede its response when nothing fails, in the
order of function.go (lines 79 to 156). -/
def pipeline : List Step :=
  [.newClient, .newReader, .readFull, .detectContentType, .newReader, .readAll,
   .imagingDecode, .calculateImageShape, .marshalMeta, .newWriter, .write, .closeWriter]

/-- The number of calls of the pipeline up to and including the one that fails:
none for a request that is not decoded or not valid, `storage.NewClient` is
the first call, the first `NewReader` the second, `io.ReadFull` the third,
the sniffing whose result the gate rejects the fourth, the second `NewReader`
the fifth, `io.ReadAll` the sixth, `imaging.Decode` the seventh, the encoding
of the metadata the ninth and `wc.Write` the eleventh. -/
def Failure.stepsRun : Failure → Nat
  | .parseRequest => 0
  | .missingField => 0
  | .createClient => 1
  | .openSource => 2
  | .probe => 3
  | .mimeNotAllowed => 4
  | .reopenSource => 5
  | .readSource => 6
  | .decodeImage => 7
  | .encodeMetadata => 9
  | .saveMetadata => 11

/-- The steps that precede the first response. -/
def beforeResponse : List Event → List Event
  | [] => []
  | .respond _ :: _ => []
  | e :: es => e :: beforeResponse es

/-! ## Sample environments -/

/-- A 512-byte object that starts with the PNG signature. -/
def pngObject : Bytes := [137, 80, 78, 71, 13, 10, 26, 10] ++ List.replicate 504 0

/-- A 512-byte object that starts with `%PDF-`. -/
def pdfObject : Bytes := [37, 80, 68, 70, 45] ++ List.replicate 507 0

/-- An object of 8 bytes: the PNG signature alone. -/
def tinyObject : Bytes := [137, 80, 78, 71, 13, 10, 26, 10]

/-- The msgpack encoding of a string of fewer than 256 ASCII characters. -/
def sampleString (s : String) : Bytes :=
  (if s.length < 32 then [160 + s.length] else [217, s.length]) ++ s.toList.map Char.toNat

/-- The msgpack encoding of an integer from 0 to 65535. -/
def sampleInt (n : Int) : Bytes :=
  if n < 128 then [n.toNat] else if n < 256 then [204, n.toNat]
  else [205, n.toNat / 256, n.toNat % 256]

/-- The msgpack encoding of the entries of a map. -/
def sampleEntries : List (String × Field) → Bytes
  | [] => []
  | (k, .str s) :: es => sampleString k ++ sampleString s ++ sampleEntries es
  | (k, .int n) :: es => sampleString k ++ sampleInt n ++ sampleEntries es

/-- The msgpack encoding of a payload with fewer than 16 entries. -/
def sampleEncode : Data → Bytes
  | .map entries => (128 + entries.length) :: sampleEntries entries
  | .imageShape s =>
    132 :: sampleEntries [("shape", .str s.Shape), ("orientation", .str s.Orientation),
      ("width", .int s.Width), ("height", .int s.Height)]

/-- A codec that never fails. -/
def sampleMarshal (data : Data) : Option Bytes := some (sampleEncode data)

/-- A sniffer that knows the PNG and the PDF signature. -/
def sampleDetect (probe : Bytes) : String :=
  if probe.take 8 = [137, 80, 78, 71, 13, 10, 26, 10] then "image/png"
  else if probe.take 5 = [37, 80, 68, 70, 45] then "application/pdf"
  else "application/octet-stream"

/-- The request for `photo.png` in bucket `b1`, a 100x100 PNG; every step succeeds. -/
def okEnv : Env where
  decode := fun _ => some ⟨"photo.png", "b1"⟩
  marshal := sampleMarshal
  newClient := true
  newReader := fun _ _ _ => some ⟨pngObject, false⟩
  detectContentType := sampleDetect
  imagingDecode := fun _ => some (100, 100)
  write := fun _ _ _ => true
  closeWriter := fun _ _ => true

/-- The request decodes, but names no file. -/
def missingFieldEnv : Env := { okEnv with decode := fun _ => some ⟨"", "b1"⟩ }

/-- The source object is a PDF document. -/
def pdfEnv : Env :=
  { okEnv with
    decode := fun _ => some ⟨"doc.pdf", "b1"⟩
    newReader := fun _ _ _ => some ⟨pdfObject, false⟩ }

/-- The source object is a decodable image of 8 bytes. -/
def tinyEnv : Env := { okEnv with newReader := fun _ _ _ => some ⟨tinyObject, false⟩ }

/-- Closing the writer of the metadata object fails; every other step succeeds. -/
def closeFailEnv : Env := { okEnv with closeWriter := fun _ _ => false }

/-- The codec fails on every value; every other step succeeds. -/
def brokenCodecEnv : Env := { okEnv with marshal := fun _ => none }

/-- A store without objects. -/
def emptyStore : Store := fun _ _ => none

/-! ## Lemmas on traces -/

theorem responses_append (xs ys : List Event) :
    responses (xs ++ ys) = responses xs ++ responses ys := by
  induction xs with
  | nil => rfl
  | cons x xs ih => cases x <;> simp [responses, ih]

theorem sendResponse_ok (m : Data → Option Bytes) (d : Data) (c : Int) (b : Bytes)
    (h : m d = some b) :
    sendResponse m d c = [.respond ⟨"application/msgpack", c, .binary b⟩] := by
  simp [sendResponse, h]

theorem sendResponse_fail (m : Data → Option Bytes) (d : Data) (c : Int) (h : m d = none) :
    sendResponse m d c
      = [.respond ⟨"text/plain; charset=utf-8", 500, .text "Failed to create response\n"⟩] := by
  simp [sendResponse, h, httpError, StatusInternalServerError]

theorem sendResponse_single (m : Data → Option Bytes) (d : Data) (c : Int) :
    ∃ r, sendResponse m d c = [.respond r] := by
  unfold sendResponse
  split
  · exact ⟨_, rfl⟩
  · exact ⟨_, rfl⟩

theorem responses_sendResponse_length (m : Data → Option Bytes) (d : Data) (c : Int) :
    (responses (sendResponse m d c)).length = 1 := by
  obtain ⟨r, hr⟩ := sendResponse_single m d c
  simp [hr, responses]

theorem afterResponse_sendResponse_append (m : Data → Option Bytes) (d : Data) (c : Int)
    (post : List Event) : afterResponse (sendResponse m d c ++ post) = post := by
  obtain ⟨r, hr⟩ := sendResponse_single m d c
  simp [hr, afterResponse]

theorem afterResponse_sendResponse (m : Data → Option Bytes) (d : Data) (c : Int) :
    afterResponse (sendResponse m d c) = [] := by
  obtain ⟨r, hr⟩ := sendResponse_single m d c
  simp [hr, afterResponse]

theorem beforeResponse_sendResponse_append (m : Data → Option Bytes) (d : Data) (c : Int)
    (post : List Event) : beforeResponse (sendResponse m d c ++ post) = [] := by
  obtain ⟨r, hr⟩ := sendResponse_single m d c
  simp [hr, beforeResponse]

theorem beforeResponse_sendResponse (m : Data → Option Bytes) (d : Data) (c : Int) :
    beforeResponse (sendResponse m d c) = [] := by
  obtain ⟨r, hr⟩ := sendResponse_single m d c
  simp [hr, beforeResponse]

theorem trace_split (t : List Event) (h : (responses t).length ≤ 1) :
    t = beforeResponse t ++ (responses t).map Event.respond ++ afterResponse t := by
  induction t with
  | nil => rfl
  | cons e es ih =>
    cases e
    case respond r =>
      have hes : responses es = [] := by
        simp only [responses, List.length_cons] at h
        exact List.length_eq_zero.mp (by omega)
      simp [beforeResponse, afterResponse, responses, hes]
    all_goals
      simp only [responses] at h
      simpa [beforeResponse, afterResponse, responses] using ih h

theorem writeTarget_sendResponse (m : Data → Option Bytes) (d : Data) (c : Int) :
    ∀ e ∈ sendResponse m d c, e.writeTarget = none := by
  obtain ⟨r, hr⟩ := sendResponse_single m d c
  simp [hr, Event.writeTarget]

theorem isStorageOp_sendResponse (m : Data → Option Bytes) (d : Data) (c : Int) :
    ∀ e ∈ sendResponse m d c, e.isStorageOp = false := by
  obtain ⟨r, hr⟩ := sendResponse_single m d c
  simp [hr, Event.isStorageOp]

theorem statusCode_sendResponse (m : Data → Option Bytes) (d : Data) :
    ∀ r ∈ responses (sendResponse m d 500), r.statusCode = 500 := by
  unfold sendResponse
  split <;> simp [responses, httpError, StatusInternalServerError]

theorem writeTargets_append (xs ys : List Event) :
    writeTargets (xs ++ ys) = writeTargets xs ++ writeTargets ys := by
  induction xs with
  | nil => rfl
  | cons x xs ih =>
    simp only [List.cons_append, writeTargets]
    split <;> simp [ih]

theorem writeTargets_sendResponse (m : Data → Option Bytes) (d : Data) (c : Int) :
    writeTargets (sendResponse m d c) = [] := by
  obtain ⟨r, hr⟩ := sendResponse_single m d c
  simp [hr, writeTargets, Event.writeTarget]

theorem metaObject_ne (filename : String) : filename ++ metaFileExtension ≠ filename := by
  intro h
  have hl := congrArg String.length h
  have h9 : metaFileExtension.length = 9 := by decide
  rw [String.length_append, h9] at hl
  omega

theorem lookup_mimesAllowed (mime : String) :
    (mimesAllowed.lookup mime).isNone = true ↔
      mime ∉ ["image/gif", "image/x-icon", "image/jpeg", "image/webp", "image/png"] := by
  simp only [mimesAllowed, List.lookup]
  by_cases h1 : mime = "image/gif"
  · subst h1; decide
  by_cases h2 : mime = "image/x-icon"
  · subst h2; decide
  by_cases h3 : mime = "image/jpeg"
  · subst h3; decide
  by_cases h4 : mime = "image/webp"
  · subst h4; decide
  by_cases h5 : mime = "image/png"
  · subst h5; decide
  have e1 : (mime == "image/gif") = false := by simp [h1]
  have e2 : (mime == "image/x-icon") = false := by simp [h2]
  have e3 : (mime == "image/jpeg") = false := by simp [h3]
  have e4 : (mime == "image/webp") = false := by simp [h4]
  have e5 : (mime == "image/png") = false := by simp [h5]
  simp [e1, e2, e3, e4, e5, h1, h2, h3, h4, h5]

/-- The response of an invocation is the one `sendResponse` produces for the success
payload with status 200, or the one `sendError` produces for a message and a status. -/
theorem imageMeta_responses (env : Env) (store : Store) (body : Bytes) :
    (∃ s, responses (imageMeta env store body).trace
        = responses (sendResponse env.marshal (.imageShape s) 200)) ∨
    (∃ msg code, responses (imageMeta env store body).trace
        = responses (sendError env.marshal msg code)) := by
  unfold imageMeta
  dsimp only
  repeat' split
  all_goals simp [responses_append, responses]
  all_goals first
    | exact Or.inr ⟨_, _, rfl⟩
    | exact Or.inl ⟨_, rfl⟩

/-! ## The classifier -/

/-- C1: `calculateImageShape` is total; it returns (Square, Symmetrical) when the
width equals the height, (Rectangle, Landscape) when the width is larger and
(Rectangle, Portrait) when it is smaller; so its result is one of exactly
these three pairs, and it is Square if and only if width = height. -/
theorem calculateImageShape_spec (width height : Int) :
    (width = height → calculateImageShape width height = ("Square", "Symmetrical")) ∧
    (width > height → calculateImageShape width height = ("Rectangle", "Landscape")) ∧
    (width < height → calculateImageShape width height = ("Rectangle", "Portrait")) ∧
    (calculateImageShape width height = ("Square", "Symmetrical") ∨
      calculateImageShape width height = ("Rectangle", "Landscape") ∨
      calculateImageShape width height = ("Rectangle", "Portrait")) ∧
    ((calculateImageShape width height).1 = "Square" ↔ width = height) := by
  unfold calculateImageShape
  rcases lt_trichotomy width height with h | h | h
  · have h1 : width ≠ height := ne_of_lt h
    have h2 : ¬ width > height := not_lt.mpr (le_of_lt h)
    simp [h1, h2, h]
  · simp [h]
  · have h1 : width ≠ height := ne_of_gt h
    have h2 : ¬ width < height := not_lt.mpr (le_of_lt h)
    simp [h1, h2, h]


/-! ## Validation of the request -/

/-- C2: when the request decodes but its filename or its bucket is empty, the only
step of the invocation is the failure response that `sendError` builds for
"Incorrect filename or bucket" and status 400, which reaches the caller as
status 400 with the encoding of that error map whenever the codec encodes it;
no step reaches the object store (no client, no reader, no writer) and the
store is left as it was. -/
theorem imageMeta_missing_field (env : Env) (store : Store) (body : Bytes) (d : ImageData)
    (hd : env.decode body = some d) (he : d.Filename = "" ∨ d.Bucket = "") :
    (imageMeta env store body).trace
        = sendError env.marshal "Incorrect filename or bucket" 400 ∧
    (∀ b, env.marshal (errorData "Incorrect filename or bucket" 400) = some b →
      (imageMeta env store body).trace
        = [.respond ⟨"application/msgpack", 400, .binary b⟩]) ∧
    (∀ e ∈ (imageMeta env store body).trace, e.isStorageOp = false) ∧
    (imageMeta env store body).store = store := by
  have ht : (imageMeta env store body).trace
      = sendError env.marshal "Incorrect filename or bucket" 400 := by
    simp [imageMeta, hd, he, StatusBadRequest]
  refine ⟨ht, ?_, ?_, ?_⟩
  · intro b hb
    rw [ht]
    exact sendResponse_ok _ _ _ _ hb
  · rw [ht]
    exact isStorageOp_sendResponse _ _ _
  · simp [imageMeta, hd, he]

theorem imageMeta_missing_field_witness :
    missingFieldEnv.decode [] = some ⟨"", "b1"⟩ ∧
    (imageMeta missingFieldEnv emptyStore []).trace
      = [.respond ⟨"application/msgpack", 400,
          .binary (sampleEncode (.map [("message", .str "Incorrect filename or bucket"),
            ("status_code", .int 400)]))⟩] :=
  ⟨rfl, (imageMeta_missing_field missingFieldEnv emptyStore [] ⟨"", "b1"⟩ rfl
    (Or.inl rfl)).2.1 _ rfl⟩

/-! ## The MIME gate -/

/-- C10: for a valid request whose first reader delivers fewer than 512 bytes before
it ends, or whose probe read returns an error, the handler sends the failure
response that `sendError` builds for "Failed to determine MIME type" and
status 500 right after the probe read: the status on the wire is 500, the
body is the encoding of that error map whenever the codec encodes it, nothing
is sniffed, decoded or classified, no writer is opened and the store is left
as it was, whatever the sniffer and the image decoder would have said about
the object. -/
theorem imageMeta_short_probe (env : Env) (store : Store) (body : Bytes) (d : ImageData)
    (rc : Stream) (hd : env.decode body = some d) (hf : d.Filename ≠ "") (hb : d.Bucket ≠ "")
    (hc : env.newClient = true) (hr : env.newReader 0 d.Bucket d.Filename = some rc)
    (hs : rc.data.length < 512 ∨ readFull rc 512 = none) :
    (imageMeta env store body).trace
        = [.newClient, .newReader d.Bucket d.Filename, .readFull 512]
          ++ sendError env.marshal "Failed to determine MIME type" 500
          ++ [.closeReader, .closeClient] ∧
    (∀ r ∈ responses (imageMeta env store body).trace, r.statusCode = 500) ∧
    (∀ b, env.marshal (errorData "Failed to determine MIME type" 500) = some b →
      responses (imageMeta env store body).trace
        = [⟨"application/msgpack", 500, .binary b⟩]) ∧
    (∀ e ∈ (imageMeta env store body).trace,
      (∀ p, e ≠ .detectContentType p) ∧ (∀ c, e ≠ .imagingDecode c) ∧
      (∀ w h, e ≠ .calculateImageShape w h) ∧ e.writeTarget = none) ∧
    (imageMeta env store body).store = store := by
  have hp : readFull rc 512 = none := by
    rcases hs with hs | hs
    · simp [readFull]
      omega
    · exact hs
  have ht : (imageMeta env store body).trace
      = [.newClient, .newReader d.Bucket d.Filename, .readFull 512]
          ++ sendError env.marshal "Failed to determine MIME type" 500
          ++ [.closeReader, .closeClient] := by
    simp [imageMeta, hd, hf, hb, hc, hr, hp, StatusInternalServerError]
  obtain ⟨r, hx⟩ := sendResponse_single env.marshal
    (errorData "Failed to determine MIME type" 500) 500
  refine ⟨ht, ?_, ?_, ?_, ?_⟩
  · rw [ht]
    have := statusCode_sendResponse env.marshal (errorData "Failed to determine MIME type" 500)
    simpa [responses_append, responses, sendError] using this
  · intro b hm
    rw [ht]
    simp [responses_append, responses, sendError, sendResponse_ok _ _ _ _ hm]
  · rw [ht]
    simp [sendError, hx, Event.writeTarget]
  · simp [imageMeta, hd, hf, hb, hc, hr, hp]

theorem imageMeta_short_probe_witness :
    tinyEnv.detectContentType tinyObject = "image/png" ∧
    tinyEnv.imagingDecode tinyObject = some (100, 100) ∧
    responses (imageMeta tinyEnv emptyStore []).trace
      = [⟨"application/msgpack", 500,
          .binary (sampleEncode (.map [("message", .str "Failed to determine MIME type"),
            ("status_code", .int 500)]))⟩] :=
  ⟨by decide, rfl, (imageMeta_short_probe tinyEnv emptyStore [] ⟨"photo.png", "b1"⟩
    ⟨tinyObject, false⟩ rfl (by decide) (by decide) rfl rfl (Or.inl (by decide))).2.2.1 _ rfl⟩

/-- C3: for a valid request whose first reader yields a full 512-byte probe: if the
type sniffed from the probe is not one of image/gif, image/x-icon, image/jpeg,
image/webp, image/png, the handler sends the failure response that `sendError`
builds for "File type not allowed" and status 400 right after sniffing (on
the wire: status 400 and the encoding of that error map, whenever the codec
encodes it), so that no second reader is opened, the content is not read, no
writer is opened and the store is left as it was; if the sniffed type is one
of the five, the handler goes on to open the second reader. -/
theorem imageMeta_mime_gate (env : Env) (store : Store) (body : Bytes) (d : ImageData)
    (rc : Stream) (buf : Bytes)
    (hd : env.decode body = some d) (hf : d.Filename ≠ "") (hb : d.Bucket ≠ "")
    (hc : env.newClient = true) (hr : env.newReader 0 d.Bucket d.Filename = some rc)
    (hp : readFull rc 512 = some buf) :
    (env.detectContentType buf
        ∉ ["image/gif", "image/x-icon", "image/jpeg", "image/webp", "image/png"] →
      (imageMeta env store body).trace
        = [.newClient, .newReader d.Bucket d.Filename, .readFull 512, .detectContentType buf]
          ++ sendError env.marshal "File type not allowed" 400
          ++ [.closeReader, .closeClient] ∧
      (∀ b, env.marshal (errorData "File type not allowed" 400) = some b →
        responses (imageMeta env store body).trace
          = [⟨"application/msgpack", 400, .binary b⟩]) ∧
      (∀ e ∈ (imageMeta env store body).trace, e ≠ .readAll ∧ e.writeTarget = none) ∧
      (imageMeta env store body).trace.count (.newReader d.Bucket d.Filename) = 1 ∧
      (imageMeta env store body).store = store) ∧
    (env.detectContentType buf
        ∈ ["image/gif", "image/x-icon", "image/jpeg", "image/webp", "image/png"] →
      (imageMeta env store body).trace.take 5
        = [.newClient, .newReader d.Bucket d.Filename, .readFull 512, .detectContentType buf,
           .newReader d.Bucket d.Filename]) := by
  constructor
  · intro hm
    have hl := (lookup_mimesAllowed (env.detectContentType buf)).mpr hm
    have ht : (imageMeta env store body).trace
        = [.newClient, .newReader d.Bucket d.Filename, .readFull 512, .detectContentType buf]
          ++ sendError env.marshal "File type not allowed" 400
          ++ [.closeReader, .closeClient] := by
      simp [imageMeta, hd, hf, hb, hc, hr, hp, hl, StatusBadRequest]
    obtain ⟨r, hx⟩ := sendResponse_single env.marshal
      (errorData "File type not allowed" 400) 400
    refine ⟨ht, ?_, ?_, ?_, ?_⟩
    · intro b hm
      rw [ht]
      simp [responses_append, responses, sendError, sendResponse_ok _ _ _ _ hm]
    · rw [ht]
      simp [sendError, hx, Event.writeTarget]
    · rw [ht]
      simp [sendError, hx]
    · simp [imageMeta, hd, hf, hb, hc, hr, hp, hl]
  · intro hm
    have hl : ¬ (mimesAllowed.lookup (env.detectContentType buf)).isNone = true :=
      fun h => (lookup_mimesAllowed (env.detectContentType buf)).mp h hm
    have he : ¬ (d.Filename = "" ∨ d.Bucket = "") := by simp [hf, hb]
    have hc2 : ¬ (env.newClient = false) := by simp [hc]
    unfold imageMeta
    dsimp only
    simp only [hd, hr, hp]
    rw [if_neg he, if_neg hc2, if_neg hl]
    repeat' split
    all_goals rfl

set_option maxRecDepth 20000 in
theorem imageMeta_mime_gate_witness :
    pdfEnv.detectContentType pdfObject = "application/pdf" ∧
    responses (imageMeta pdfEnv emptyStore []).trace
      = [⟨"application/msgpack", 400,
          .binary (sampleEncode (.map [("message", .str "File type not allowed"),
            ("status_code", .int 400)]))⟩] :=
  ⟨by decide, ((imageMeta_mime_gate pdfEnv emptyStore [] ⟨"doc.pdf", "b1"⟩
    ⟨pdfObject, false⟩ pdfObject rfl (by decide) (by decide) rfl rfl (by decide)).1
      (by decide)).2.1 _ rfl⟩

/-! ## The successful invocation -/

/-- C4: when every storage, sniffing, decoding and encoding step succeeds and the
decoded image has dimensions (w, h), the handler answers with status 200 and
the encoding of the `ImageShape` whose shape and orientation are
`calculateImageShape w h`, whose width is w and whose height is h; and it
writes, to the same bucket under `filename ++ ".img.meta"`, the encoding of the
map with exactly these four values under the keys shape, orientation, width
and height, which is what the store holds under that key afterwards. -/
theorem imageMeta_success (env : Env) (store : Store) (body : Bytes) (d : ImageData)
    (rc rc2 : Stream) (buf content metaBytes responseBytes : Bytes) (w h : Int)
    (hd : env.decode body = some d) (hf : d.Filename ≠ "") (hb : d.Bucket ≠ "")
    (hc : env.newClient = true) (hr : env.newReader 0 d.Bucket d.Filename = some rc)
    (hp : readFull rc 512 = some buf)
    (hm : env.detectContentType buf
        ∈ ["image/gif", "image/x-icon", "image/jpeg", "image/webp", "image/png"])
    (hr2 : env.newReader 1 d.Bucket d.Filename = some rc2)
    (ha : readAll rc2 = some content)
    (hi : env.imagingDecode content = some (w, h))
    (hmeta : env.marshal (.map [("shape", .str (calculateImageShape w h).1),
        ("orientation", .str (calculateImageShape w h).2),
        ("width", .int w), ("height", .int h)]) = some metaBytes)
    (hw : env.write d.Bucket (d.Filename ++ ".img.meta") metaBytes = true)
    (hcl : env.closeWriter d.Bucket (d.Filename ++ ".img.meta") = true)
    (hresp : env.marshal (.imageShape ⟨(calculateImageShape w h).1,
        (calculateImageShape w h).2, w, h⟩) = some responseBytes) :
    responses (imageMeta env store body).trace
        = [⟨"application/msgpack", 200, .binary responseBytes⟩] ∧
    (imageMeta env store body).trace
        = [.newClient, .newReader d.Bucket d.Filename, .readFull 512, .detectContentType buf,
           .newReader d.Bucket d.Filename, .readAll, .imagingDecode content,
           .calculateImageShape w h,
           .marshalMeta (.map [("shape", .str (calculateImageShape w h).1),
             ("orientation", .str (calculateImageShape w h).2),
             ("width", .int w), ("height", .int h)]),
           .newWriter d.Bucket (d.Filename ++ ".img.meta"),
           .write d.Bucket (d.Filename ++ ".img.meta") metaBytes,
           .closeWriter d.Bucket (d.Filename ++ ".img.meta"),
           .respond ⟨"application/msgpack", 200, .binary responseBytes⟩,
           .closeReader, .closeReader, .closeClient] ∧
    (imageMeta env store body).store d.Bucket (d.Filename ++ ".img.meta") = some metaBytes ∧
    (imageMeta env store body).store
        = store.put d.Bucket (d.Filename ++ ".img.meta") metaBytes := by
  have he : ¬ (d.Filename = "" ∨ d.Bucket = "") := by simp [hf, hb]
  have hc2 : ¬ (env.newClient = false) := by simp [hc]
  have hl : ¬ (mimesAllowed.lookup (env.detectContentType buf)).isNone = true :=
    fun x => (lookup_mimesAllowed (env.detectContentType buf)).mp x hm
  have hw2 : ¬ (env.write d.Bucket (d.Filename ++ metaFileExtension) metaBytes = false) := by
    simp [metaFileExtension, hw]
  have hcl2 : env.closeWriter d.Bucket (d.Filename ++ metaFileExtension) = true := hcl
  have hmeta2 : env.marshal (metaData (calculateImageShape w h).1 (calculateImageShape w h).2
      w h) = some metaBytes := hmeta
  have ho : imageMeta env store body
      = ⟨[.newClient, .newReader d.Bucket d.Filename, .readFull 512, .detectContentType buf,
          .newReader d.Bucket d.Filename, .readAll, .imagingDecode content,
          .calculateImageShape w h,
          .marshalMeta (metaData (calculateImageShape w h).1 (calculateImageShape w h).2 w h),
          .newWriter d.Bucket (d.Filename ++ metaFileExtension),
          .write d.Bucket (d.Filename ++ metaFileExtension) metaBytes,
          .closeWriter d.Bucket (d.Filename ++ metaFileExtension)]
          ++ sendResponse env.marshal (.imageShape ⟨(calculateImageShape w h).1,
              (calculateImageShape w h).2, w, h⟩) StatusOK
          ++ [.closeReader, .closeReader, .closeClient],
         store.put d.Bucket (d.Filename ++ metaFileExtension) metaBytes⟩ := by
    unfold imageMeta
    dsimp only
    simp only [hd, hr, hp, hr2, ha, hi, hmeta2]
    rw [if_neg he, if_neg hc2, if_neg hl, if_neg hw2, if_pos hcl2]
  rw [ho, sendResponse_ok _ _ _ _ hresp]
  refine ⟨?_, ?_, ?_, ?_⟩
  · simp [responses, StatusOK]
  · simp [metaData, metaFileExtension, StatusOK]
  · simp [Store.put, metaFileExtension]
  · simp [metaFileExtension]

set_option maxRecDepth 20000 in
theorem imageMeta_success_witness :
    okEnv.imagingDecode pngObject = some (100, 100) ∧
    responses (imageMeta okEnv emptyStore []).trace
      = [⟨"application/msgpack", 200,
          .binary (sampleEncode (.imageShape ⟨"Square", "Symmetrical", 100, 100⟩))⟩] ∧
    (imageMeta okEnv emptyStore []).store "b1" "photo.png.img.meta"
      = some (sampleEncode (.map [("shape", .str "Square"), ("orientation", .str "Symmetrical"),
          ("width", .int 100), ("height", .int 100)])) :=
  have t := imageMeta_success okEnv emptyStore [] ⟨"photo.png", "b1"⟩ ⟨pngObject, false⟩
    ⟨pngObject, false⟩ pngObject pngObject
    (sampleEncode (.map [("shape", .str "Square"), ("orientation", .str "Symmetrical"),
      ("width", .int 100), ("height", .int 100)]))
    (sampleEncode (.imageShape ⟨"Square", "Symmetrical", 100, 100⟩))
    100 100 rfl (by decide) (by decide)
    rfl rfl (by decide) (by decide) rfl rfl rfl rfl rfl rfl rfl
  ⟨rfl, t.1, t.2.2.1⟩

/-! ## Persisting the metadata -/

set_option maxRecDepth 20000 in
/-- C5: when every step succeeds except closing the writer of the metadata object,
the handler still answers with status 200 and the success payload, although
the store holds no metadata object for the request afterwards. -/
theorem imageMeta_close_failure_answers_200 :
    closeFailEnv.closeWriter "b1" "photo.png.img.meta" = false ∧
    responses (imageMeta closeFailEnv emptyStore []).trace
      = [⟨"application/msgpack", 200,
          .binary (sampleEncode (.imageShape ⟨"Square", "Symmetrical", 100, 100⟩))⟩] ∧
    Event.closeWriter "b1" "photo.png.img.meta" ∈ (imageMeta closeFailEnv emptyStore []).trace ∧
    (imageMeta closeFailEnv emptyStore []).store "b1" "photo.png.img.meta" = none := by
  refine ⟨rfl, ?_, ?_, ?_⟩
  · decide
  · decide
  · decide

/-! ## The source object is never written -/

/-- C6: whatever the outcome of an invocation, every step on a writer (open, write,
close) is on the object `filename ++ ".img.meta"` of the requested bucket; that
name differs from `filename` for every filename; so the object stored under
(bucket, filename) is unchanged, and so is every object that is not stored
under the metadata key. -/
theorem imageMeta_never_writes_source (env : Env) (store : Store) (body : Bytes) :
    (∀ t ∈ writeTargets (imageMeta env store body).trace,
      ∃ d, env.decode body = some d ∧ t = (d.Bucket, d.Filename ++ ".img.meta")) ∧
    (∀ filename : String, filename ++ ".img.meta" ≠ filename) ∧
    (∀ d, env.decode body = some d →
      (imageMeta env store body).store d.Bucket d.Filename = store d.Bucket d.Filename) ∧
    (∀ b k, (∀ d, env.decode body = some d → ¬ (b = d.Bucket ∧ k = d.Filename ++ ".img.meta")) →
      (imageMeta env store body).store b k = store b k) := by
  have key : ∀ b k, (∀ d, env.decode body = some d →
      ¬ (b = d.Bucket ∧ k = d.Filename ++ metaFileExtension)) →
      (imageMeta env store body).store b k = store b k := by
    intro b k hk
    unfold imageMeta
    dsimp only
    repeat' split
    all_goals first
      | rfl
      | (have hn := hk _ (by assumption)
         simp [Store.put, hn])
  refine ⟨?_, metaObject_ne, ?_, key⟩
  · unfold imageMeta
    dsimp only
    repeat' split
    all_goals simp [writeTargets_append, writeTargets, sendError, writeTargets_sendResponse,
      Event.writeTarget, metaFileExtension]
    all_goals exact ⟨_, by assumption, rfl, rfl⟩
  · intro d hd
    apply key
    intro d2 hd2 hx
    rw [hd] at hd2
    cases hd2
    exact metaObject_ne d.Filename hx.2.symm

/-! ## Failure responses -/

/-- C7: a failure response built by `sendError` hands the same status to the
transport and to the `status_code` entry of the error map, and both reach the
caller whenever the map is encoded; and on every path of `imageMeta` on which
a step of the transition table fails, the response is the one `sendError`
builds for the message of that step and for status 400 if the failure is one
of the three client errors (request not decoded, filename or bucket empty,
sniffed type not allowed) and status 500 for every other failure. -/
theorem imageMeta_failure_status (env : Env) (store : Store) (body : Bytes) (f : Failure)
    (hf : firstFailure env body = some f) :
    (∀ msg code, sendError env.marshal msg code
        = sendResponse env.marshal
            (.map [("message", .str msg), ("status_code", .int code)]) code) ∧
    (∀ msg code b,
      env.marshal (.map [("message", .str msg), ("status_code", .int code)]) = some b →
      sendError env.marshal msg code = [.respond ⟨"application/msgpack", code, .binary b⟩]) ∧
    responses (imageMeta env store body).trace
        = responses (sendError env.marshal f.message f.status) ∧
    (f.status = 400 ↔ f = .parseRequest ∨ f = .missingField ∨ f = .mimeNotAllowed) ∧
    (f.status = 500 ↔ ¬ (f = .parseRequest ∨ f = .missingField ∨ f = .mimeNotAllowed)) := by
  refine ⟨fun _ _ => rfl, fun msg code b hb => sendResponse_ok _ _ _ _ hb, ?_, ?_, ?_⟩
  · revert hf
    unfold imageMeta firstFailure
    dsimp only
    repeat' split
    all_goals intro hf
    all_goals first
      | (cases hf
         simp [responses_append, responses, Failure.message, Failure.status,
           StatusBadRequest, StatusInternalServerError])
      | simp_all
  · cases f <;> simp [Failure.status]
  · cases f <;> simp [Failure.status]

set_option maxRecDepth 20000 in
theorem imageMeta_failure_status_witness :
    firstFailure pdfEnv [] = some .mimeNotAllowed ∧
    responses (imageMeta pdfEnv emptyStore []).trace
      = responses (sendError pdfEnv.marshal "File type not allowed" 400) :=
  ⟨by decide, (imageMeta_failure_status pdfEnv emptyStore [] .mimeNotAllowed (by decide)).2.2.1⟩

/-! ## The response on the wire -/

set_option maxRecDepth 20000 in
/-- C8, as stated, fails: when the codec cannot encode the payload, the caller receives
a plain-text response, not a msgpack one. -/
theorem response_not_always_msgpack :
    brokenCodecEnv.marshal (errorData "Failed to create metadata" 500) = none ∧
    responses (imageMeta brokenCodecEnv emptyStore []).trace
      = [⟨"text/plain; charset=utf-8", 500, .text "Failed to create response\n"⟩] ∧
    ¬ (∀ r ∈ responses (imageMeta brokenCodecEnv emptyStore []).trace,
        r.contentType = "application/msgpack") := by
  refine ⟨rfl, ?_, ?_⟩
  · decide
  · decide

/-- C8, amended: the caller receives exactly one response; its payload is the
`ImageShape` with status 200 or an error map {message, status_code} with its
status; whenever the codec encodes that payload, the response has
Content-Type application/msgpack, the status of the payload and the encoding
as its body; when the codec fails on it, the response is the plain-text line
"Failed to create response" with status 500. -/
theorem imageMeta_response_wire (env : Env) (store : Store) (body : Bytes) :
    ∃ data code,
      ((∃ s, data = .imageShape s ∧ code = 200) ∨
        (∃ msg, data = .map [("message", .str msg), ("status_code", .int code)])) ∧
      (∀ b, env.marshal data = some b →
        responses (imageMeta env store body).trace
          = [⟨"application/msgpack", code, .binary b⟩]) ∧
      (env.marshal data = none →
        responses (imageMeta env store body).trace
          = [⟨"text/plain; charset=utf-8", 500, .text "Failed to create response\n"⟩]) := by
  rcases imageMeta_responses env store body with ⟨s, hs⟩ | ⟨msg, code, hs⟩
  · refine ⟨.imageShape s, 200, Or.inl ⟨s, rfl, rfl⟩, ?_, ?_⟩
    · intro b hb
      rw [hs, sendResponse_ok _ _ _ _ hb]
      rfl
    · intro hn
      rw [hs, sendResponse_fail _ _ _ hn]
      rfl
  · refine ⟨errorData msg code, code, Or.inr ⟨msg, rfl⟩, ?_, ?_⟩
    · intro b hb
      rw [hs, sendError, sendResponse_ok _ _ _ _ hb]
      rfl
    · intro hn
      rw [hs, sendError, sendResponse_fail _ _ _ hn]
      rfl

/-! ## One response per invocation -/

/-- C9: for every request and every behaviour of the collaborators, an invocation
sends exactly one response, which is the one built for the success payload or
the one built for a failure payload, and the only steps after the response
are the deferred `Close` calls on the readers and the client.  When a step
fails, the calls made before the response are exactly the calls of the
pipeline up to and including the failing one, in order, the response is the
error of that step, and the store is left as it was: no later step runs.
When no step fails, the calls before the response are the whole pipeline and
the response is the success payload. -/
theorem imageMeta_one_response (env : Env) (store : Store) (body : Bytes) :
    (responses (imageMeta env store body).trace).length = 1 ∧
    ((∃ s, responses (imageMeta env store body).trace
        = responses (sendResponse env.marshal (.imageShape s) 200)) ∨
     (∃ msg code, responses (imageMeta env store body).trace
        = responses (sendError env.marshal msg code))) ∧
    (∀ e ∈ afterResponse (imageMeta env store body).trace, e.isDeferredClose = true) ∧
    ((imageMeta env store body).trace
        = beforeResponse (imageMeta env store body).trace
          ++ (responses (imageMeta env store body).trace).map Event.respond
          ++ afterResponse (imageMeta env store body).trace) ∧
    (∀ f, firstFailure env body = some f →
      (beforeResponse (imageMeta env store body).trace).map Event.step
          = pipeline.take f.stepsRun ∧
      responses (imageMeta env store body).trace
          = responses (sendError env.marshal f.message f.status) ∧
      (imageMeta env store body).store = store) ∧
    (firstFailure env body = none →
      (beforeResponse (imageMeta env store body).trace).map Event.step = pipeline ∧
      ∃ s, responses (imageMeta env store body).trace
          = responses (sendResponse env.marshal (.imageShape s) 200)) := by
  refine ⟨?_, imageMeta_responses env store body, ?_, ?_, ?_, ?_⟩
  · rcases imageMeta_responses env store body with ⟨s, hs⟩ | ⟨msg, code, hs⟩
    · rw [hs]
      exact responses_sendResponse_length _ _ _
    · rw [hs]
      exact responses_sendResponse_length _ _ _
  · unfold imageMeta
    dsimp only
    repeat' split
    all_goals simp [sendError, afterResponse, afterResponse_sendResponse_append,
      afterResponse_sendResponse, Event.isDeferredClose]
  · apply trace_split
    rcases imageMeta_responses env store body with ⟨s, hs⟩ | ⟨msg, code, hs⟩
    · rw [hs, responses_sendResponse_length]
    · rw [hs]
      exact le_of_eq (responses_sendResponse_length _ _ _)
  · intro f hf
    revert hf
    unfold imageMeta firstFailure
    dsimp only
    repeat' split
    all_goals intro hf
    all_goals first
      | (cases hf
         simp [sendError, beforeResponse, beforeResponse_sendResponse_append,
           beforeResponse_sendResponse, responses_append, responses, Event.step, pipeline,
           Failure.stepsRun, Failure.message, Failure.status, StatusBadRequest,
           StatusInternalServerError])
      | simp_all
  · intro hf
    revert hf
    unfold imageMeta firstFailure
    dsimp only
    repeat' split
    all_goals intro hf
    all_goals first
      | (cases hf; done)
      | (simp [sendError, beforeResponse, beforeResponse_sendResponse_append,
           beforeResponse_sendResponse, responses_append, responses, Event.step, pipeline]
         exact ⟨_, rfl⟩)

set_option maxRecDepth 20000 in
theorem imageMeta_one_response_witness :
    firstFailure pdfEnv [] = some .mimeNotAllowed ∧
    (beforeResponse (imageMeta pdfEnv emptyStore []).trace).map Event.step
      = [.newClient, .newReader, .readFull, .detectContentType] ∧
    afterResponse (imageMeta pdfEnv emptyStore []).trace = [.closeReader, .closeClient] :=
  ⟨by decide,
   ((imageMeta_one_response pdfEnv emptyStore []).2.2.2.2.1 .mimeNotAllowed (by decide)).1,
   by decide⟩

end ImageMeta
